import Mathlib

/-!
Verification of the SnooNote → Mod Note importer
(`modnote_snoonote_importer/parser.py`).

Python strings are modelled as `List Char`; Python slicing (including
negative indices), `str.strip()` (ASCII whitespace), and `str.lower()`
(ASCII case folding) are modelled explicitly.  The PRAW Reddit client is
modelled as an oracle: outcomes of `reddit.notes.create`,
`reddit.comment(...)` and `reddit.submission(...)` calls are supplied as
data, with Python exceptions modelled by an explicit exception type.
Generators and the recursive retry in `_post_to_reddit` are modelled with
explicit fuel; `fuel ran out` is a distinct, observable outcome that marks
a run the real program would continue past the modelled budget.
-/

namespace SnooNoteImporter

/-- Python exceptions that play a role in `parser.py`. -/
inductive PyExc where
  /-- `praw.exceptions.InvalidURL` -/
  | invalidURL
  /-- `praw.exceptions.ClientException` -/
  | clientException
  /-- `prawcore.exceptions.NotFound` -/
  | notFound
  /-- `ValueError` -/
  | valueError
  /-- `IndexError` -/
  | indexError
  /-- `KeyError` -/
  | keyError
  /-- `praw.exceptions.RedditAPIException` with its `error_type` string -/
  | apiException (error_type : String)
  /-- any other exception (e.g. a prawcore network/server error) -/
  | otherExc (name : String)
deriving DecidableEq

/-! ## Python string primitives -/

/-- The clamped split index used by Python slicing `s[:n]` / `s[n:]`:
for `0 ≤ n` it is `min n len`, for `n < 0` it is `max (len + n) 0`. -/
def sliceIdx (n : Int) (len : Nat) : Nat :=
  if 0 ≤ n then min n.toNat len else len - (-n).toNat

/-- Python `s[:n]` (supports negative `n`). -/
def pySliceTo (n : Int) (s : List Char) : List Char :=
  s.take (sliceIdx n s.length)

/-- Python `s[n:]` (supports negative `n`). -/
def pySliceFrom (n : Int) (s : List Char) : List Char :=
  s.drop (sliceIdx n s.length)

/-- ASCII whitespace as removed by Python `str.strip()`. -/
def isPySpace (c : Char) : Bool :=
  c == ' ' || c == '\t' || c == '\n' || c == '\r' || c == Char.ofNat 11 || c == Char.ofNat 12

/-- Python `str.strip()`: drop leading and trailing whitespace. -/
def pyStrip (s : List Char) : List Char :=
  ((s.dropWhile isPySpace).reverse.dropWhile isPySpace).reverse

/-- Python `str.lower()` (ASCII case folding). -/
def pyLower (s : String) : String :=
  String.mk (s.data.map Char.toLower)

/-! ## `split_message_into_chunks` (parser.py lines 131–149)

```python
chunk_len = max_size - len(header)
copy = message
while len(copy):
    chunk = header + copy[:chunk_len].strip()
    copy = copy[chunk_len:]
    yield chunk
```

The `while` loop is modelled with fuel: `chunksRun` returns the chunks
yielded within `fuel` iterations together with `true` iff the loop
condition became false (the generator is exhausted) within that budget. -/

def chunksRun (header : List Char) (chunk_len : Int) :
    Nat → List Char → List (List Char) × Bool
  | _, [] => ([], true)
  | 0, _ :: _ => ([], false)
  | fuel + 1, c :: cs =>
    let copy := c :: cs
    let chunk := header ++ pyStrip (pySliceTo chunk_len copy)
    let rest := chunksRun header chunk_len fuel (pySliceFrom chunk_len copy)
    (chunk :: rest.1, rest.2)

/-- `split_message_into_chunks(header=…, message=…, max_size=…)`, run for
`fuel` iterations of the generator loop. -/
def split_message_into_chunks (header message : List Char) (max_size : Int)
    (fuel : Nat) : List (List Char) × Bool :=
  chunksRun header (max_size - header.length) fuel message

/-- The generator's loop terminates (the chunk sequence is finite). -/
def ChunksTerminate (header message : List Char) (max_size : Int) : Prop :=
  ∃ fuel, (split_message_into_chunks header message max_size fuel).2 = true

/-! ## Static label tables (parser.py lines 16–42) -/

/-- `REDDIT_MOD_NOTE_LABELS` (a Python dict, modelled as an association
list in source order). -/
def REDDIT_MOD_NOTE_LABELS : List (String × String) :=
  [("ABUSE_WARNING", "Abuse Warning"),
   ("BAN", "Ban"),
   ("BOT_BAN", "Shadow Ban"),
   ("HELPFUL_USER", "Helpful User"),
   ("PERMA_BAN", "Permanent Ban"),
   ("SOLID_CONTRIBUTOR", "Solid Contributor"),
   ("SPAM_WARNING", "Spam Warning"),
   ("SPAM_WATCH", "Spam Watch")]

/-- `SNOONOTE_TO_MOD_NOTE_LABELS`: map between SnooNote labels and their
Mod Note counterparts.  The key `"None"` is present with value `none`, so
dict membership is `List.lookup … ≠ none`, not `… ≠ some none`. -/
def SNOONOTE_TO_MOD_NOTE_LABELS : List (String × Option String) :=
  [("Abuse Warning", some "ABUSE_WARNING"),
   ("Ban", some "BAN"),
   ("Bot Ban", some "BOT_BAN"),
   ("Good Contributor", some "SOLID_CONTRIBUTOR"),
   ("Good User", some "SOLID_CONTRIBUTOR"),
   ("None", none),
   ("Perma Ban", some "PERMA_BAN"),
   ("Shadow Ban", some "BOT_BAN"),
   ("Spam Ban", some "BAN"),
   ("Spam Perma", some "PERMA_BAN"),
   ("Spam Warn", some "SPAM_WARNING"),
   ("Spam Warning", some "SPAM_WARNING"),
   ("Spam Watch", some "SPAM_WATCH")]

/-! ## Data model (parser.py lines 45–74) -/

/-- Dataclass `SnooNoteType`. -/
structure SnooNoteType where
  note_type_id : Int
  sub_name : String
  display_name : String
  color_code : String
  display_order : Int
  bold : Bool
  italic : Bool
  icon_string : Option String
  disabled : Bool
deriving DecidableEq

/-- Dataclass `SnooNote`.  The `timestamp` field is kept as the string it
was decoded from; `dateutil.parser.isoparse` / `datetime.isoformat` are
abstracted (no claim depends on the timestamp's value). -/
structure SnooNote where
  note_id : Int
  note_type_id : Int
  sub_name : String
  submitter : String
  message : String
  applies_to_username : String
  url : String
  timestamp : String
  parent_subreddit : Option String
deriving DecidableEq

/-! ## `SnooNoteParser.parse` (parser.py lines 187–244)

The parser's mutable containers (`_note_type_map`, `_note_types`,
`_notes`) are modelled as a `ParserState`.  The JSON file is modelled as
already decoded into typed records (`ExportData`); `open` failing with
`OSError` is the `FileRead.osError` case.  `parse` returns the state the
parser object is left in together with the exception that escaped `parse`,
if any (`none` = `parse` returned normally). -/

/-- The parser's data containers (`self._note_type_map`,
`self._note_types`, `self._notes`). -/
structure ParserState where
  note_type_map : List (Int × SnooNoteType)
  note_types : List SnooNoteType
  notes : List SnooNote
deriving DecidableEq

/-- Containers as initialized in `SnooNoteParser.__init__`. -/
def initState : ParserState := ⟨[], [], []⟩

/-- A decoded export file: top-level keys `NoteTypes` and `Notes`. -/
structure ExportData where
  noteTypes : List SnooNoteType
  notes : List SnooNote
deriving DecidableEq

/-- The result of trying to open and read the export file. -/
inductive FileRead where
  /-- `open`/read raised `OSError` -/
  | osError
  /-- the file was read and its JSON decoded -/
  | content (data : ExportData)

/-- Python `d[k] = v` on the `note_type_map` dict: replace in place if the
key exists, else append. -/
def dictSet (m : List (Int × SnooNoteType)) (k : Int) (v : SnooNoteType) :
    List (Int × SnooNoteType) :=
  if (m.map Prod.fst).contains k then
    m.map fun p => if p.1 = k then (k, v) else p
  else m ++ [(k, v)]

/-- The `for item in json_output.get("NoteTypes", [])` loop: check each
display name against `SNOONOTE_TO_MOD_NOTE_LABELS` (raising `ValueError`
if absent), otherwise record the note type in the map and the list. -/
def parseNoteTypes : ParserState → List SnooNoteType →
    ParserState × Option PyExc
  | st, [] => (st, none)
  | st, nt :: rest =>
    if (List.lookup nt.display_name SNOONOTE_TO_MOD_NOTE_LABELS).isNone then
      (st, some .valueError)
    else
      parseNoteTypes
        { st with
          note_type_map := dictSet st.note_type_map nt.note_type_id nt,
          note_types := st.note_types ++ [nt] }
        rest

/-- The `for item in json_output.get("Notes", [])` loop: skip any note
whose target username lowercases to `"[deleted]"`, append the rest. -/
def parseNotes : ParserState → List SnooNote → ParserState
  | st, [] => st
  | st, n :: rest =>
    if pyLower n.applies_to_username = "[deleted]" then
      parseNotes st rest
    else
      parseNotes { st with notes := st.notes ++ [n] } rest

/-- `SnooNoteParser.parse`: on `OSError` the exception is caught, logged,
and the method returns normally; a `ValueError` from the note-type loop
escapes (second component `some …`). -/
def parse (file : FileRead) : ParserState × Option PyExc :=
  match file with
  | .osError => (initState, none)
  | .content data =>
    match parseNoteTypes initState data.noteTypes with
    | (st, some e) => (st, some e)
    | (st, none) => (parseNotes st data.notes, none)

/-! ## `determine_submission_or_comment` (parser.py lines 77–128)

PRAW lookups are modelled by an oracle giving the outcome of each of the
four strategy calls: `reddit.comment(url=…)`, `reddit.submission(url=…)`,
`reddit.comment(id=…)`, `reddit.submission(id=…)`.  A returned object
carries the truthiness of its `subreddit` attribute. -/

/-- A PRAW `Submission` or `Comment`; `subreddit` is the truthiness of
`item.subreddit`. -/
inductive Thing where
  | comment (subreddit : Bool)
  | submission (subreddit : Bool)
deriving DecidableEq

/-- Truthiness of `item.subreddit`. -/
def Thing.subredditTruthy : Thing → Bool
  | .comment b => b
  | .submission b => b

/-- Outcomes of the four PRAW lookup calls for one URL. -/
structure ResolveOracle where
  commentByUrl : Except PyExc Thing
  submissionByUrl : Except PyExc Thing
  commentById : List Char → Except PyExc Thing
  submissionById : List Char → Except PyExc Thing

/-- Python `url.rsplit(sep="/", maxsplit=1)[1]`: the segment after the
last `'/'`; `none` models the `IndexError` raised when the URL contains
no `'/'` (rsplit then yields a single-element list). -/
def lastSegAfterSlash (url : List Char) : Option (List Char) :=
  if url.contains '/' then
    some (url.reverse.takeWhile (· ≠ '/')).reverse
  else none

/-- `determine_submission_or_comment`: result is `.ok (some thing)`,
`.ok none` (log and return `None`), or `.error e` for an exception that
escapes the function. -/
def determine_submission_or_comment (o : ResolveOracle) (url : List Char) :
    Except PyExc (Option Thing) :=
  -- (a) try a comment first: only InvalidURL is caught
  match o.commentByUrl with
  | .ok item => .ok (some item)
  | .error ea =>
    if ea ≠ .invalidURL then .error ea else
    -- (b) try a submission: only InvalidURL is caught
    match o.submissionByUrl with
    | .ok item => .ok (some item)
    | .error eb =>
      if eb ≠ .invalidURL then .error eb else
      -- (c) comment by the final path segment; the rsplit indexing can
      -- itself raise IndexError, which nothing catches
      match lastSegAfterSlash url with
      | none => .error .indexError
      | some seg =>
        let stratD : Except PyExc (Option Thing) :=
          -- (d) submission by the final path segment; a falsy
          -- `item.subreddit` raises InvalidURL, caught by this block's
          -- own handler, which returns None
          match o.submissionById seg with
          | .ok item => if item.subredditTruthy then .ok (some item) else .ok none
          | .error ed =>
            if ed = .valueError ∨ ed = .notFound ∨ ed = .invalidURL then .ok none
            else .error ed
        match o.commentById seg with
        | .ok item => if item.subredditTruthy then .ok (some item) else stratD
        | .error ec =>
          if ec = .valueError ∨ ec = .invalidURL ∨ ec = .clientException then stratD
          else .error ec

/-! ## `SnooNoteParser._post_to_reddit` (parser.py lines 246–293)

`reddit.notes.create` outcomes are supplied by a `client` oracle indexed
by a global call counter and by the `thing` argument of the call.  Only
`RedditAPIException` is caught; on `NO_THING_ID` the method re-invokes
itself with `thing=None`, discards the result, and returns `False`. -/

/-- Outcome of one `reddit.notes.create` call. -/
inductive CreateOutcome where
  | success
  | raise (e : PyExc)
deriving DecidableEq

/-- Result of a `_post_to_reddit` invocation: the returned boolean, or an
exception that escaped, or fuel exhaustion; each carries the next unused
call-counter value. -/
inductive PostResult where
  | returned (b : Bool) (k : Nat)
  | raised (e : PyExc) (k : Nat)
  | fuelOut (k : Nat)
deriving DecidableEq

/-- The next unused call index of a `PostResult`. -/
def PostResult.next : PostResult → Nat
  | .returned _ k => k
  | .raised _ k => k
  | .fuelOut k => k

/-- `_post_to_reddit`: `client k thing` is the outcome of the `k`-th
`reddit.notes.create` call when passed `thing`; `fuel` bounds the
recursion depth of the `NO_THING_ID` re-attempt. -/
def postToReddit (client : Nat → Option Thing → CreateOutcome) :
    Nat → Nat → Option Thing → PostResult
  | 0, k, _ => .fuelOut k
  | fuel + 1, k, thing =>
    match client k thing with
    | .success => .returned true (k + 1)
    | .raise (.apiException t) =>
      if t = "USER_DOESNT_EXIST" then .returned false (k + 1)
      else if t = "NO_THING_ID" then
        -- re-attempt without the `thing` argument; the return value of
        -- the recursive call is discarded and False is returned
        match postToReddit client fuel (k + 1) none with
        | .returned _ k2 => .returned false k2
        | .raised e k2 => .raised e k2
        | .fuelOut k2 => .fuelOut k2
      else .returned false (k + 1)
    | .raise e => .raised e (k + 1)

/-! ## `SnooNoteParser.convert` (parser.py lines 295–352) -/

/-- `MOD_NOTE_MESSAGE_LENGTH` -/
def MOD_NOTE_MESSAGE_LENGTH : Int := 250

/-- The per-note header
`f"[{time}] [u/{author}]\n"` (the `isoformat` round-trip of the timestamp
is abstracted to the stored timestamp string). -/
def headerOf (n : SnooNote) : List Char :=
  ("[" ++ n.timestamp ++ "] [u/" ++ n.submitter ++ "]\n").data

/-- Status of a (partial) `convert` run. -/
inductive ConvStatus where
  | ok
  | exc (e : PyExc)
  | fuelOut
deriving DecidableEq

/-- Outcome of a `convert` run: the notes for which `reddit.notes.create`
was attempted (one entry per create call, in order), the next unused call
index, and the status. -/
structure ConvOut where
  trace : List SnooNote
  k : Nat
  status : ConvStatus
deriving DecidableEq

/-- Label derivation
`SNOONOTE_TO_MOD_NOTE_LABELS[self.note_type_map[snoo_note.note_type_id].display_name]`:
either of the two dict subscripts can raise `KeyError`. -/
def labelFor (tm : List (Int × SnooNoteType)) (sn : SnooNote) :
    Except PyExc (Option String) :=
  match List.lookup sn.note_type_id tm with
  | none => .error .keyError
  | some nt =>
    match List.lookup nt.display_name SNOONOTE_TO_MOD_NOTE_LABELS with
    | none => .error .keyError
    | some lbl => .ok lbl

/-- The `for message in split_message_into_chunks(…)` loop body: derive
the label (evaluated per chunk, as in the source) and post.  Returns the
next call index and the status after the listed chunks. -/
def postChunks (client : Nat → Option Thing → CreateOutcome)
    (sn : SnooNote) (tm : List (Int × SnooNoteType)) (thing : Option Thing)
    (postFuel : Nat) : List (List Char) → Nat → Nat × ConvStatus
  | [], k => (k, .ok)
  | _chunk :: rest, k =>
    match labelFor tm sn with
    | .error e => (k, .exc e)
    | .ok _lbl =>
      match postToReddit client postFuel k thing with
      | .returned _ k2 => postChunks client sn tm thing postFuel rest k2
      | .raised e k2 => (k2, .exc e)
      | .fuelOut k2 => (k2, .fuelOut)

/-- Processing of one note inside `convert`'s loop: resolve the URL,
then either post the chunk sequence (when the full message exceeds 250
characters) or post the single full message. -/
def convertStep (client : Nat → Option Thing → CreateOutcome)
    (resO : ResolveOracle) (tm : List (Int × SnooNoteType))
    (postFuel : Nat) (sn : SnooNote) (k : Nat) : Nat × ConvStatus :=
  let header := headerOf sn
  let full_message := header ++ sn.message.data
  match determine_submission_or_comment resO sn.url.data with
  | .error e => (k, .exc e)
  | .ok thing =>
    if MOD_NOTE_MESSAGE_LENGTH < (full_message.length : Int) then
      let gen := split_message_into_chunks header sn.message.data
        MOD_NOTE_MESSAGE_LENGTH sn.message.data.length
      let r := postChunks client sn tm thing postFuel gen.1 k
      -- if the generator was not exhausted within its fuel, the real
      -- loop would keep running: record fuel exhaustion
      (r.1, if r.2 = .ok ∧ gen.2 = false then .fuelOut else r.2)
    else
      match labelFor tm sn with
      | .error e => (k, .exc e)
      | .ok _lbl =>
        match postToReddit client postFuel k thing with
        | .returned _ k2 => (k2, .ok)
        | .raised e k2 => (k2, .exc e)
        | .fuelOut k2 => (k2, .fuelOut)

/-- `convert`'s `for i, snoo_note in enumerate(self.notes)` loop;
`resO i` gives the PRAW lookup outcomes for the `i`-th note's URL. -/
def convertLoop (client : Nat → Option Thing → CreateOutcome)
    (resO : Nat → ResolveOracle) (tm : List (Int × SnooNoteType))
    (postFuel : Nat) : List SnooNote → Nat → Nat → ConvOut
  | [], _, k => ⟨[], k, .ok⟩
  | sn :: rest, i, k =>
    let r := convertStep client (resO i) tm postFuel sn k
    match r.2 with
    | .ok =>
      let out := convertLoop client resO tm postFuel rest (i + 1) r.1
      ⟨List.replicate (r.1 - k) sn ++ out.trace, out.k, out.status⟩
    | s => ⟨List.replicate (r.1 - k) sn, r.1, s⟩

/-- `SnooNoteParser.convert` over the parsed state's notes. -/
def convert (client : Nat → Option Thing → CreateOutcome)
    (resO : Nat → ResolveOracle) (tm : List (Int × SnooNoteType))
    (notes : List SnooNote) (postFuel : Nat) : ConvOut :=
  convertLoop client resO tm postFuel notes 0 0

/-! ## Concrete fixtures used by counterexamples and witnesses -/

/-- A note type whose display name (`"Ban"`) is in the mapping table. -/
def banType : SnooNoteType :=
  ⟨1, "Techman", "Ban", "008000", 1, false, false, none, false⟩

/-- A note type whose display name (`"Foo"`) is absent from the mapping
table. -/
def fooType : SnooNoteType :=
  ⟨2, "Techman", "Foo", "008000", 2, false, false, none, false⟩

/-- An export with a mapped note type followed by an unmapped one. -/
def cexExportC2 : ExportData := ⟨[banType, fooType], []⟩

/-- A note whose target username is a case variant of `"[deleted]"`. -/
def delNote : SnooNote :=
  ⟨7, 1, "Techman", "mod", "msg", "[Deleted]", "https://a/b", "2022-09-24", none⟩

/-- An export holding `banType` and the `[Deleted]` note. -/
def delExport : ExportData := ⟨[banType], [delNote]⟩

/-- A short note of the mapped type `banType`. -/
def okNote : SnooNote :=
  ⟨1, 1, "Techman", "mod", "m", "user", "https://a/b", "2022-09-24", none⟩

/-- PRAW lookup outcomes where `reddit.comment(url=…)` directly returns a
comment. -/
def okOracle : ResolveOracle :=
  ⟨.ok (Thing.comment true), .error .invalidURL,
    fun _ => .error .clientException, fun _ => .error .notFound⟩

/-- PRAW lookup outcomes where every strategy fails with the exception
each `except` clause anticipates. -/
def failOracle : ResolveOracle :=
  ⟨.error .invalidURL, .error .invalidURL,
    fun _ => .error .clientException, fun _ => .error .notFound⟩

/-- A create-call oracle whose first call fails with `NO_THING_ID` and
whose retry succeeds. -/
def retryClient : Nat → Option Thing → CreateOutcome :=
  fun k _ => if k = 0 then .raise (.apiException "NO_THING_ID") else .success

/-! ## Helper lemmas: string primitives -/

theorem length_dropWhile_le (p : Char → Bool) (l : List Char) :
    (l.dropWhile p).length ≤ l.length := by
  induction l with
  | nil => simp [List.dropWhile]
  | cons a l ih =>
    simp only [List.dropWhile]
    cases h : p a
    · simp
    · simpa using Nat.le_succ_of_le ih

theorem pyStrip_length_le (s : List Char) : (pyStrip s).length ≤ s.length := by
  unfold pyStrip
  calc ((s.dropWhile isPySpace).reverse.dropWhile isPySpace).reverse.length
      = ((s.dropWhile isPySpace).reverse.dropWhile isPySpace).length := by
        simp
    _ ≤ (s.dropWhile isPySpace).reverse.length := length_dropWhile_le _ _
    _ = (s.dropWhile isPySpace).length := by simp
    _ ≤ s.length := length_dropWhile_le _ _

theorem pySlice_append (n : Int) (s : List Char) :
    pySliceTo n s ++ pySliceFrom n s = s :=
  List.take_append_drop _ _

theorem length_pySliceTo_le (n : Int) (h : 0 ≤ n) (s : List Char) :
    (pySliceTo n s).length ≤ n.toNat := by
  simp only [pySliceTo, List.length_take, sliceIdx, if_pos h]
  omega

theorem length_pySliceFrom (n : Int) (s : List Char) :
    (pySliceFrom n s).length = s.length - sliceIdx n s.length := by
  simp [pySliceFrom]

theorem sliceIdx_pos (n : Int) (len : Nat) (h : 1 ≤ n) (hl : 1 ≤ len) :
    1 ≤ sliceIdx n len := by
  have h0 : 0 ≤ n := le_trans (by norm_num) h
  have : 1 ≤ n.toNat := by omega
  simp only [sliceIdx, if_pos h0]
  omega

/-! ## Helper lemmas: chunking -/

theorem chunksRun_length_le (header : List Char) (cl : Int) (hcl : 0 ≤ cl) :
    ∀ (fuel : Nat) (copy : List Char),
      ∀ c ∈ (chunksRun header cl fuel copy).1,
        c.length ≤ header.length + cl.toNat := by
  intro fuel
  induction fuel with
  | zero =>
    intro copy c hc
    cases copy with
    | nil => simp [chunksRun] at hc
    | cons a l => simp [chunksRun] at hc
  | succ fuel ih =>
    intro copy c hc
    cases copy with
    | nil => simp [chunksRun] at hc
    | cons a l =>
      simp only [chunksRun, List.mem_cons] at hc
      rcases hc with rfl | hc
      · have h1 : (pyStrip (pySliceTo cl (a :: l))).length ≤ cl.toNat :=
          le_trans (pyStrip_length_le _) (length_pySliceTo_le cl hcl _)
        simp only [List.length_append]
        omega
      · exact ih _ c hc

theorem chunksRun_done (header : List Char) (cl : Int) (hcl : 1 ≤ cl) :
    ∀ (fuel : Nat) (copy : List Char), copy.length ≤ fuel →
      (chunksRun header cl fuel copy).2 = true := by
  intro fuel
  induction fuel with
  | zero =>
    intro copy hlen
    cases copy with
    | nil => simp [chunksRun]
    | cons a l => simp at hlen
  | succ fuel ih =>
    intro copy hlen
    cases copy with
    | nil => simp [chunksRun]
    | cons a l =>
      simp only [chunksRun]
      apply ih
      have hidx : 1 ≤ sliceIdx cl (a :: l).length :=
        sliceIdx_pos cl _ hcl (by simp)
      have := length_pySliceFrom cl (a :: l)
      simp only [List.length_cons] at *
      omega

theorem chunksRun_join (header : List Char) (cl : Int) :
    ∀ (fuel : Nat) (copy : List Char),
      ∃ (pieces : List (List Char)) (rest : List Char),
        copy = pieces.flatten ++ rest ∧
        (chunksRun header cl fuel copy).1 =
          pieces.map (fun p => header ++ pyStrip p) ∧
        ((chunksRun header cl fuel copy).2 = true → rest = []) := by
  intro fuel
  induction fuel with
  | zero =>
    intro copy
    cases copy with
    | nil => exact ⟨[], [], by simp, by simp [chunksRun], fun _ => rfl⟩
    | cons a l =>
      exact ⟨[], a :: l, by simp, by simp [chunksRun], by simp [chunksRun]⟩
  | succ fuel ih =>
    intro copy
    cases copy with
    | nil => exact ⟨[], [], by simp, by simp [chunksRun], fun _ => rfl⟩
    | cons a l =>
      obtain ⟨pieces, rest, hjoin, hfst, hsnd⟩ := ih (pySliceFrom cl (a :: l))
      refine ⟨pySliceTo cl (a :: l) :: pieces, rest, ?_, ?_, ?_⟩
      · calc (a :: l : List Char)
            = pySliceTo cl (a :: l) ++ pySliceFrom cl (a :: l) :=
              (pySlice_append cl _).symm
          _ = pySliceTo cl (a :: l) ++ (pieces.flatten ++ rest) := by rw [← hjoin]
          _ = (pySliceTo cl (a :: l) :: pieces).flatten ++ rest := by simp
      · simp only [chunksRun, List.map_cons]
        exact congrArg _ hfst
      · simpa only [chunksRun] using hsnd

theorem chunksRun_cl_nonpos_stuck :
    ∀ fuel : Nat, (chunksRun [] 0 fuel ['x']).2 = false := by
  intro fuel
  induction fuel with
  | zero => simp [chunksRun]
  | succ fuel ih =>
    simpa only [chunksRun, pySliceFrom, sliceIdx, show ((0:Int) ≤ 0) from le_refl 0,
      if_pos, Int.toNat_zero, List.length_cons, List.length_nil, Nat.min_zero,
      List.drop] using ih

/-! ## Claims C3, C4, C5 -/

/-- C3 (counterexample): with `header = "ab"`, `message = "x"`,
`max_size = 1`, the first yielded chunk is `"ab"` of length `2 > 1`: the
invariant "every yielded chunk's length is ≤ maxSize" fails when the
header is longer than the maximum chunk size. -/
theorem claim_C3_cex :
    ¬ (∀ c ∈ (split_message_into_chunks ['a', 'b'] ['x'] 1 1).1,
        (c.length : Int) ≤ 1) := by
  decide

/-- C3 (amended): whenever the header's length is at most the maximum
chunk size, every chunk yielded by `split_message_into_chunks` has length
at most `max_size`. -/
theorem claim_C3_chunk_length (header message : List Char) (max_size : Int)
    (fuel : Nat) (h : (header.length : Int) ≤ max_size) :
    ∀ c ∈ (split_message_into_chunks header message max_size fuel).1,
      (c.length : Int) ≤ max_size := by
  intro c hc
  have hcl : 0 ≤ max_size - (header.length : Int) := by omega
  have := chunksRun_length_le header (max_size - header.length) hcl fuel message c hc
  have htn : ((max_size - (header.length : Int)).toNat : Int)
      = max_size - header.length := Int.toNat_of_nonneg hcl
  omega

/-- C3 witness. -/
theorem claim_C3_chunk_length_witness :
    ((("H".data).length : Int) ≤ 3) ∧
      (∀ c ∈ (split_message_into_chunks "H".data "ab c".data 3 4).1,
        (c.length : Int) ≤ 3) :=
  ⟨by decide, claim_C3_chunk_length "H".data "ab c".data 3 4 (by decide)⟩

/-- C4 (counterexample): with `header = ""`, `message = "x"`,
`max_size = 0`, the chunk budget `max_size - len(header)` is `0`, the
slice `copy[0:]` leaves `copy` unchanged, and the generator loop never
terminates. -/
theorem claim_C4_cex : ¬ ChunksTerminate [] ['x'] 0 := by
  rintro ⟨fuel, h⟩
  have hstuck := chunksRun_cl_nonpos_stuck fuel
  have : split_message_into_chunks [] ['x'] 0 fuel = chunksRun [] 0 fuel ['x'] := by
    simp [split_message_into_chunks]
  rw [this, hstuck] at h
  exact Bool.false_ne_true h

/-- C4 (amended): whenever the header is strictly shorter than the
maximum chunk size (so each iteration consumes at least one character of
the remaining body), the generator loop terminates. -/
theorem claim_C4_terminates (header message : List Char) (max_size : Int)
    (h : (header.length : Int) < max_size) :
    ChunksTerminate header message max_size :=
  ⟨message.length,
    chunksRun_done header (max_size - header.length) (by omega) _ message le_rfl⟩

/-- C4 witness. -/
theorem claim_C4_terminates_witness :
    ((("H".data).length : Int) < 3) ∧ ChunksTerminate "H".data "ab c".data 3 :=
  ⟨by decide, claim_C4_terminates "H".data "ab c".data 3 (by decide)⟩

/-- C5: whenever the generator loop completes, the yielded chunks are
exactly the header-prefixed, whitespace-stripped consecutive pieces of
the original message: there is a partition of `message` into `pieces`
with `message = pieces.flatten` and the chunk list equal to
`pieces.map (header ++ pyStrip ·)` — i.e. concatenating the chunk bodies
(header removed) reconstructs the message up to the whitespace trimmed at
each split point. -/
theorem claim_C5_reconstruct (header message : List Char) (max_size : Int)
    (fuel : Nat)
    (h : (split_message_into_chunks header message max_size fuel).2 = true) :
    ∃ pieces : List (List Char), message = pieces.flatten ∧
      (split_message_into_chunks header message max_size fuel).1 =
        pieces.map (fun p => header ++ pyStrip p) := by
  obtain ⟨pieces, rest, hjoin, hfst, hsnd⟩ :=
    chunksRun_join header (max_size - header.length) fuel message
  refine ⟨pieces, ?_, hfst⟩
  rw [hjoin, hsnd h, List.append_nil]

/-- C5 witness. -/
theorem claim_C5_reconstruct_witness :
    ((split_message_into_chunks "H".data "ab c".data 3 4).2 = true) ∧
      ∃ pieces : List (List Char), "ab c".data = pieces.flatten ∧
        (split_message_into_chunks "H".data "ab c".data 3 4).1 =
          pieces.map (fun p => "H".data ++ pyStrip p) :=
  ⟨by decide, claim_C5_reconstruct "H".data "ab c".data 3 4 (by decide)⟩

/-! ## Helper lemmas: parse -/

/-- The note-type loop never touches the `notes` container. -/
theorem parseNoteTypes_notes :
    ∀ (l : List SnooNoteType) (st : ParserState),
      (parseNoteTypes st l).1.notes = st.notes := by
  intro l
  induction l with
  | nil => intro st; rfl
  | cons nt rest ih =>
    intro st
    simp only [parseNoteTypes]
    by_cases h : (List.lookup nt.display_name SNOONOTE_TO_MOD_NOTE_LABELS).isNone
    · simp [h]
    · simp only [h, if_false]
      exact ih _

/-- If some display name in the list is unmapped, the note-type loop ends
in a `ValueError`, and the accumulated `note_types` are exactly the
mapped ones preceding the first unmapped one. -/
theorem parseNoteTypes_unmapped :
    ∀ (l : List SnooNoteType) (st : ParserState),
      (∃ nt ∈ l, List.lookup nt.display_name SNOONOTE_TO_MOD_NOTE_LABELS = none) →
      (parseNoteTypes st l).2 = some .valueError ∧
      (parseNoteTypes st l).1.note_types = st.note_types ++
        l.takeWhile (fun nt =>
          (List.lookup nt.display_name SNOONOTE_TO_MOD_NOTE_LABELS).isSome) := by
  intro l
  induction l with
  | nil => intro st h; simp at h
  | cons nt rest ih =>
    intro st h
    cases hm : (List.lookup nt.display_name SNOONOTE_TO_MOD_NOTE_LABELS).isNone with
    | true =>
      have hF : (List.lookup nt.display_name SNOONOTE_TO_MOD_NOTE_LABELS).isSome = false := by
        cases hl : List.lookup nt.display_name SNOONOTE_TO_MOD_NOTE_LABELS with
        | none => rfl
        | some v => rw [hl] at hm; exact absurd hm (by simp)
      refine ⟨by simp [parseNoteTypes, hm], ?_⟩
      simp [parseNoteTypes, hm, List.takeWhile, hF]
    | false =>
      have hrest : ∃ nt ∈ rest,
          List.lookup nt.display_name SNOONOTE_TO_MOD_NOTE_LABELS = none := by
        rcases h with ⟨x, hx, hlook⟩
        rcases List.mem_cons.mp hx with rfl | hx'
        · rw [hlook] at hm; exact absurd hm (by simp)
        · exact ⟨x, hx', hlook⟩
      have hT : (List.lookup nt.display_name SNOONOTE_TO_MOD_NOTE_LABELS).isSome = true := by
        cases hl : List.lookup nt.display_name SNOONOTE_TO_MOD_NOTE_LABELS with
        | none => rw [hl] at hm; exact absurd hm (by simp)
        | some v => rfl
      obtain ⟨h1, h2⟩ := ih
        { st with
          note_type_map := dictSet st.note_type_map nt.note_type_id nt,
          note_types := st.note_types ++ [nt] } hrest
      refine ⟨?_, ?_⟩
      · simpa [parseNoteTypes, hm] using h1
      · simp only [parseNoteTypes, hm, Bool.false_eq_true, if_false,
          List.takeWhile, hT]
        rw [h2]
        simp

/-- Membership in the notes produced by the `Notes` loop: each one either
was already present or comes from the input and is not a `[deleted]`
note. -/
theorem parseNotes_not_deleted :
    ∀ (l : List SnooNote) (st : ParserState) (n : SnooNote),
      pyLower n.applies_to_username = "[deleted]" →
      n ∉ st.notes → n ∉ (parseNotes st l).notes := by
  intro l
  induction l with
  | nil => intro st n _ hst; exact hst
  | cons m rest ih =>
    intro st n hdel hst
    simp only [parseNotes]
    by_cases hm : pyLower m.applies_to_username = "[deleted]"
    · simpa [hm] using ih st n hdel hst
    · simp only [hm, if_false]
      apply ih _ n hdel
      intro hmem
      rcases List.mem_append.mp hmem with h1 | h2
      · exact hst h1
      · have : n = m := by simpa using h2
        exact hm (this ▸ hdel)

/-! ## Claims C1, C2 -/

/-- C1 (counterexample): when the export file cannot be opened or read
(`OSError`), `parse` catches the exception and returns normally —
exactly the "return normally with empty collections" outcome the claim
rules out; no error escapes. -/
theorem claim_C1_cex :
    (parse FileRead.osError).2 = none ∧
      (parse FileRead.osError).1.note_types = [] ∧
      (parse FileRead.osError).1.notes = [] := by
  decide

/-- C1 (amended): on an unreadable input path, `parse` catches the
`OSError`, logs it, and returns normally, leaving the parser with empty
collections; no `FileAccessError` (or any exception) propagates. -/
theorem claim_C1_oserror_returns :
    parse FileRead.osError = (⟨[], [], []⟩, none) := by
  decide

/-- C2 (counterexample): for an export whose note types are a mapped
`"Ban"` type followed by an unmapped `"Foo"` type, `parse` does fail with
the `ValueError`, but the parser still exposes the previously decoded
note type in `note_types` and in the index — the "no parsed note types,
no index entries" part of the claim fails. -/
theorem claim_C2_cex :
    (parse (FileRead.content cexExportC2)).2 = some PyExc.valueError ∧
      (parse (FileRead.content cexExportC2)).1.note_types ≠ [] ∧
      (parse (FileRead.content cexExportC2)).1.note_type_map ≠ [] := by
  decide

/-- C2 (amended): if any note type's display name is absent from
`SNOONOTE_TO_MOD_NOTE_LABELS`, `parse` fails with the `ValueError`
(`UnmappedLabelError`) and no notes are parsed; however the note types
decoded before the first unmapped one remain exposed in `note_types`. -/
theorem claim_C2_unmapped (data : ExportData)
    (h : ∃ nt ∈ data.noteTypes,
      List.lookup nt.display_name SNOONOTE_TO_MOD_NOTE_LABELS = none) :
    (parse (FileRead.content data)).2 = some PyExc.valueError ∧
      (parse (FileRead.content data)).1.notes = [] ∧
      (parse (FileRead.content data)).1.note_types =
        data.noteTypes.takeWhile (fun nt =>
          (List.lookup nt.display_name SNOONOTE_TO_MOD_NOTE_LABELS).isSome) := by
  obtain ⟨h1, h2⟩ := parseNoteTypes_unmapped data.noteTypes initState h
  have hn := parseNoteTypes_notes data.noteTypes initState
  simp only [parse]
  rcases heq : parseNoteTypes initState data.noteTypes with ⟨st, e⟩
  rw [heq] at h1 h2 hn
  subst h1
  exact ⟨rfl, hn, h2⟩

/-- C2 witness. -/
theorem claim_C2_unmapped_witness :
    (∃ nt ∈ cexExportC2.noteTypes,
      List.lookup nt.display_name SNOONOTE_TO_MOD_NOTE_LABELS = none) ∧
      ((parse (FileRead.content cexExportC2)).2 = some PyExc.valueError ∧
        (parse (FileRead.content cexExportC2)).1.notes = [] ∧
        (parse (FileRead.content cexExportC2)).1.note_types =
          cexExportC2.noteTypes.takeWhile (fun nt =>
            (List.lookup nt.display_name SNOONOTE_TO_MOD_NOTE_LABELS).isSome)) :=
  ⟨⟨fooType, by decide, by decide⟩, claim_C2_unmapped cexExportC2 ⟨fooType, by decide, by decide⟩⟩

/-! ## Helper lemmas: convert trace -/

/-- Every note for which `convert` attempts a `reddit.notes.create` call
comes from the notes list it iterates over. -/
theorem convertLoop_trace_subset (client : Nat → Option Thing → CreateOutcome)
    (resO : Nat → ResolveOracle) (tm : List (Int × SnooNoteType))
    (postFuel : Nat) :
    ∀ (notes : List SnooNote) (i k : Nat) (x : SnooNote),
      x ∈ (convertLoop client resO tm postFuel notes i k).trace → x ∈ notes := by
  intro notes
  induction notes with
  | nil => intro i k x hx; simp [convertLoop] at hx
  | cons sn rest ih =>
    intro i k x hx
    simp only [convertLoop] at hx
    split at hx
    · rcases List.mem_append.mp hx with h1 | h2
      · exact (List.eq_of_mem_replicate h1) ▸ List.mem_cons_self sn rest
      · exact List.mem_cons_of_mem sn (ih _ _ x h2)
    · exact (List.eq_of_mem_replicate hx) ▸ List.mem_cons_self sn rest

/-! ## Claim C6 -/

/-- C6: a record whose target username case-insensitively equals
`"[deleted]"` is excluded from the parsed notes, and consequently no
`reddit.notes.create` call is ever attempted for it during `convert`. -/
theorem claim_C6_deleted_excluded (file : FileRead) (n : SnooNote)
    (h : pyLower n.applies_to_username = "[deleted]") :
    n ∉ (parse file).1.notes ∧
      ∀ (client : Nat → Option Thing → CreateOutcome)
        (resO : Nat → ResolveOracle) (postFuel : Nat),
        n ∉ (convert client resO (parse file).1.note_type_map
              (parse file).1.notes postFuel).trace := by
  have hnotes : n ∉ (parse file).1.notes := by
    cases file with
    | osError => simp [parse, initState]
    | content data =>
      simp only [parse]
      rcases heq : parseNoteTypes initState data.noteTypes with ⟨st, e⟩
      have hst : st.notes = [] := by
        have := parseNoteTypes_notes data.noteTypes initState
        rw [heq] at this
        exact this
      cases e with
      | some e => simp [hst]
      | none =>
        simp only
        exact parseNotes_not_deleted data.notes st n h (by simp [hst])
  refine ⟨hnotes, fun client resO postFuel hx => ?_⟩
  exact hnotes (convertLoop_trace_subset client resO _ postFuel _ 0 0 n hx)

/-- C6 witness. -/
theorem claim_C6_deleted_excluded_witness :
    (pyLower delNote.applies_to_username = "[deleted]") ∧
      (delNote ∉ (parse (FileRead.content delExport)).1.notes ∧
        ∀ (client : Nat → Option Thing → CreateOutcome)
          (resO : Nat → ResolveOracle) (postFuel : Nat),
          delNote ∉ (convert client resO
                (parse (FileRead.content delExport)).1.note_type_map
                (parse (FileRead.content delExport)).1.notes postFuel).trace) :=
  ⟨by decide, claim_C6_deleted_excluded (FileRead.content delExport) delNote (by decide)⟩

/-! ## Claim C8 -/

/-- C8 (counterexample): for a URL with no `'/'` (here `"foo"`) whose
direct comment and submission interpretations fail with `InvalidURL`, the
final-path-segment extraction `url.rsplit(sep="/", maxsplit=1)[1]` raises
an `IndexError` that no `except` clause catches, so
`determine_submission_or_comment` raises instead of returning `None`. -/
theorem claim_C8_cex :
    determine_submission_or_comment failOracle "foo".data =
      Except.error PyExc.indexError := by
  rfl

/-- C8 (amended): when the four strategies are attempted in order —
(a) direct comment, (b) direct submission, (c) comment by final path
segment accepted only with a truthy `subreddit`, (d) submission by final
path segment with the same validation — and all four fail with the
exception kinds their `except` clauses anticipate, the function returns
`None` without raising, provided the URL contains at least one `'/'` (so
the final-path-segment extraction itself does not raise). -/
theorem claim_C8_resolution (o : ResolveOracle) (url : List Char)
    (ha : o.commentByUrl = .error .invalidURL)
    (hb : o.submissionByUrl = .error .invalidURL)
    (hslash : url.contains '/' = true)
    (hc : ∀ seg, lastSegAfterSlash url = some seg →
      (o.commentById seg = .error .valueError ∨
       o.commentById seg = .error .invalidURL ∨
       o.commentById seg = .error .clientException ∨
       ∃ t, o.commentById seg = .ok t ∧ t.subredditTruthy = false))
    (hd : ∀ seg, lastSegAfterSlash url = some seg →
      (o.submissionById seg = .error .valueError ∨
       o.submissionById seg = .error .notFound ∨
       o.submissionById seg = .error .invalidURL ∨
       ∃ t, o.submissionById seg = .ok t ∧ t.subredditTruthy = false)) :
    determine_submission_or_comment o url = .ok none := by
  have hseg : lastSegAfterSlash url =
      some (url.reverse.takeWhile (· ≠ '/')).reverse := by
    simp only [lastSegAfterSlash, hslash, if_true]
  rcases hc _ hseg with h | h | h | ⟨t, ht, htf⟩ <;>
    rcases hd _ hseg with h' | h' | h' | ⟨t', ht', htf'⟩ <;>
      simp_all [determine_submission_or_comment, hseg]

/-- C8 witness: the bad-URL scenario
`"https://reddit.com/r/DestinyTheGame/"` — every strategy fails and the
resolution yields `None` without raising. -/
theorem claim_C8_resolution_witness :
    ("https://reddit.com/r/DestinyTheGame/".data.contains '/' = true) ∧
      determine_submission_or_comment failOracle
        "https://reddit.com/r/DestinyTheGame/".data = .ok none :=
  ⟨by decide,
    claim_C8_resolution failOracle "https://reddit.com/r/DestinyTheGame/".data
      rfl rfl (by decide)
      (fun _ _ => Or.inr (Or.inr (Or.inl rfl)))
      (fun _ _ => Or.inr (Or.inl rfl))⟩

/-! ## Claims C7, C10 -/

/-- C7 (counterexample): when every create call (including the retry,
which passes `thing=None`) fails with `NO_THING_ID`, `_post_to_reddit`
keeps re-attempting: within a recursion budget of 5 it performs 5 create
calls — more than the 2 calls (1 retry) the claim allows — and still has
not returned. -/
theorem claim_C7_cex :
    postToReddit (fun _ _ => CreateOutcome.raise (PyExc.apiException "NO_THING_ID"))
        5 0 (some (Thing.comment true)) = PostResult.fuelOut 5 ∧
      2 < (postToReddit
        (fun _ _ => CreateOutcome.raise (PyExc.apiException "NO_THING_ID"))
        5 0 (some (Thing.comment true))).next := by
  exact ⟨rfl, by decide⟩

/-- C7 (amended): per-class handling of `RedditAPIException`:
`USER_DOESNT_EXIST` → log, no retry, return `False` after one call;
any other error type except `NO_THING_ID` → log, no retry, return `False`
after one call; `NO_THING_ID` → retry once with the reference dropped
(`thing=None`), and — provided the retry does not itself fail with
`NO_THING_ID`, in which case the source recurses again — exactly one
retry happens: the invocation finishes after exactly two calls. -/
theorem claim_C7_error_classes (client : Nat → Option Thing → CreateOutcome)
    (fuel k : Nat) (thing : Option Thing) :
    (client k thing = .raise (.apiException "USER_DOESNT_EXIST") →
      postToReddit client (fuel + 1) k thing = .returned false (k + 1)) ∧
    (∀ t, client k thing = .raise (.apiException t) →
      t ≠ "USER_DOESNT_EXIST" → t ≠ "NO_THING_ID" →
      postToReddit client (fuel + 1) k thing = .returned false (k + 1)) ∧
    (client k thing = .raise (.apiException "NO_THING_ID") →
      client (k + 1) none ≠ .raise (.apiException "NO_THING_ID") →
      (postToReddit client (fuel + 2) k thing = .returned false (k + 2) ∨
        ∃ e, postToReddit client (fuel + 2) k thing = .raised e (k + 2))) := by
  refine ⟨?_, ?_, ?_⟩
  · intro h
    simp [postToReddit, h]
  · intro t h ht1 ht2
    simp [postToReddit, h, ht1, ht2]
  · intro h hretry
    cases hr : client (k + 1) none with
    | success =>
      left
      simp [postToReddit, h, hr]
    | raise e =>
      cases e with
      | apiException t =>
        left
        have ht : t ≠ "NO_THING_ID" := fun he => hretry (he ▸ hr)
        by_cases hu : t = "USER_DOESNT_EXIST" <;>
          simp [postToReddit, h, hr, hu, ht]
      | invalidURL =>
        exact Or.inr ⟨PyExc.invalidURL, by simp [postToReddit, h, hr]⟩
      | clientException =>
        exact Or.inr ⟨PyExc.clientException, by simp [postToReddit, h, hr]⟩
      | notFound =>
        exact Or.inr ⟨PyExc.notFound, by simp [postToReddit, h, hr]⟩
      | valueError =>
        exact Or.inr ⟨PyExc.valueError, by simp [postToReddit, h, hr]⟩
      | indexError =>
        exact Or.inr ⟨PyExc.indexError, by simp [postToReddit, h, hr]⟩
      | keyError =>
        exact Or.inr ⟨PyExc.keyError, by simp [postToReddit, h, hr]⟩
      | otherExc s =>
        exact Or.inr ⟨PyExc.otherExc s, by simp [postToReddit, h, hr]⟩

/-- C7 witness: first call `NO_THING_ID`, retry succeeds — the invocation
finishes after exactly two calls. -/
theorem claim_C7_error_classes_witness :
    postToReddit retryClient (1 + 2) 0 (some (Thing.comment true)) =
        .returned false (0 + 2) ∨
      ∃ e, postToReddit retryClient (1 + 2) 0 (some (Thing.comment true)) =
        .raised e (0 + 2) :=
  (claim_C7_error_classes retryClient 1 0 (some (Thing.comment true))).2.2
    (by decide) (by decide)

/-- C10: whenever the initial `reddit.notes.create` call raises a
`RedditAPIException` (of any error type) and `_post_to_reddit` returns,
it returns `False` — even when the error was `NO_THING_ID` and the retry
without the reference succeeded. -/
theorem claim_C10_api_error_returns_false
    (client : Nat → Option Thing → CreateOutcome) (fuel k : Nat)
    (thing : Option Thing) (t : String) (b : Bool) (k2 : Nat)
    (h1 : client k thing = .raise (.apiException t))
    (h2 : postToReddit client fuel k thing = .returned b k2) :
    b = false := by
  cases fuel with
  | zero => simp [postToReddit] at h2
  | succ fuel =>
    simp only [postToReddit, h1] at h2
    by_cases hu : t = "USER_DOESNT_EXIST"
    · simp only [hu, if_true, PostResult.returned.injEq] at h2
      first
      | exact h2.1
      | exact h2.1.symm
    · by_cases hn : t = "NO_THING_ID"
      · simp only [hu, hn, if_false, if_true] at h2
        rcases hinner : postToReddit client fuel (k + 1) none with _ | _ | _ <;>
          rw [hinner] at h2 <;> simp at h2
        exact h2.1
      · simp only [hu, hn, if_false, PostResult.returned.injEq] at h2
        first
        | exact h2.1
        | exact h2.1.symm

/-- C10 witness: `NO_THING_ID` on the first call, successful retry, and
the caller is still told `False`. -/
theorem claim_C10_api_error_returns_false_witness :
    retryClient 0 (some (Thing.comment true)) =
        .raise (.apiException "NO_THING_ID") ∧
      postToReddit retryClient 2 0 (some (Thing.comment true)) =
        .returned false 2 ∧
      (false : Bool) = false :=
  ⟨by decide, by decide,
    claim_C10_api_error_returns_false retryClient 2 0 (some (Thing.comment true))
      "NO_THING_ID" false 2 (by decide) (by decide)⟩

/-! ## Helper lemmas: convert completion -/

/-- A retry call (`thing=None`) returns when the client only fails with
API exceptions and never reports `NO_THING_ID` for a `thing=None` call. -/
theorem postToReddit_none_returns (client : Nat → Option Thing → CreateOutcome)
    (hapi : ∀ k th, client k th = .success ∨
      ∃ t, client k th = .raise (.apiException t))
    (hnone : ∀ k, client k none ≠ .raise (.apiException "NO_THING_ID")) :
    ∀ (fuel k : Nat), 1 ≤ fuel →
      ∃ b, postToReddit client fuel k none = .returned b (k + 1) := by
  intro fuel k hf
  cases fuel with
  | zero => omega
  | succ fuel =>
    rcases hapi k none with hs | ⟨t, ht⟩
    · exact ⟨true, by simp [postToReddit, hs]⟩
    · have hT : t ≠ "NO_THING_ID" := fun he => hnone k (he ▸ ht)
      by_cases hu : t = "USER_DOESNT_EXIST"
      · exact ⟨false, by simp [postToReddit, ht, hu]⟩
      · exact ⟨false, by simp [postToReddit, ht, hu, hT]⟩

/-- Under the same client assumptions, any `_post_to_reddit` invocation
with recursion budget at least 2 returns a boolean (no exception escapes,
no budget exhaustion). -/
theorem postToReddit_returns (client : Nat → Option Thing → CreateOutcome)
    (hapi : ∀ k th, client k th = .success ∨
      ∃ t, client k th = .raise (.apiException t))
    (hnone : ∀ k, client k none ≠ .raise (.apiException "NO_THING_ID")) :
    ∀ (fuel k : Nat) (thing : Option Thing), 2 ≤ fuel →
      ∃ b k2, postToReddit client fuel k thing = .returned b k2 := by
  intro fuel k thing hf
  obtain ⟨f, rfl⟩ : ∃ f, fuel = f + 2 := ⟨fuel - 2, by omega⟩
  rcases hapi k thing with hs | ⟨t, ht⟩
  · exact ⟨true, k + 1, by simp [postToReddit, hs]⟩
  · by_cases hu : t = "USER_DOESNT_EXIST"
    · exact ⟨false, k + 1, by simp [postToReddit, ht, hu]⟩
    · by_cases hn : t = "NO_THING_ID"
      · obtain ⟨b', hb'⟩ :=
          postToReddit_none_returns client hapi hnone (f + 1) (k + 1) (by omega)
        refine ⟨false, k + 1 + 1, ?_⟩
        subst hn
        rw [postToReddit.eq_def]
        simp [ht, hu, hb']
      · exact ⟨false, k + 1, by simp [postToReddit, ht, hu, hn]⟩

/-- Posting a list of chunks completes with status `ok`. -/
theorem postChunks_ok (client : Nat → Option Thing → CreateOutcome)
    (hapi : ∀ k th, client k th = .success ∨
      ∃ t, client k th = .raise (.apiException t))
    (hnone : ∀ k, client k none ≠ .raise (.apiException "NO_THING_ID"))
    (sn : SnooNote) (tm : List (Int × SnooNoteType)) (thing : Option Thing)
    (postFuel : Nat) (hf : 2 ≤ postFuel)
    (hlbl : ∃ lbl, labelFor tm sn = .ok lbl) :
    ∀ (chunks : List (List Char)) (k : Nat),
      (postChunks client sn tm thing postFuel chunks k).2 = .ok := by
  intro chunks
  induction chunks with
  | nil => intro k; rfl
  | cons c rest ih =>
    intro k
    obtain ⟨lbl, hl⟩ := hlbl
    obtain ⟨b, k2, hp⟩ := postToReddit_returns client hapi hnone postFuel k thing hf
    simp only [postChunks, hl, hp]
    exact ih k2

/-- Processing one note completes with status `ok` when its URL resolves
without an escaping exception, its label lookups succeed, and its header
is shorter than the maximum note length. -/
theorem convertStep_ok (client : Nat → Option Thing → CreateOutcome)
    (o : ResolveOracle) (tm : List (Int × SnooNoteType)) (postFuel : Nat)
    (sn : SnooNote)
    (hapi : ∀ k th, client k th = .success ∨
      ∃ t, client k th = .raise (.apiException t))
    (hnone : ∀ k, client k none ≠ .raise (.apiException "NO_THING_ID"))
    (hf : 2 ≤ postFuel)
    (hres : ∃ th, determine_submission_or_comment o sn.url.data = .ok th)
    (hlbl : ∃ lbl, labelFor tm sn = .ok lbl)
    (hheader : ((headerOf sn).length : Int) < MOD_NOTE_MESSAGE_LENGTH) :
    ∀ k, (convertStep client o tm postFuel sn k).2 = .ok := by
  intro k
  obtain ⟨th, hth⟩ := hres
  simp only [convertStep, hth]
  by_cases hlen : MOD_NOTE_MESSAGE_LENGTH <
      (((headerOf sn ++ sn.message.data).length : Nat) : Int)
  · have h250 : MOD_NOTE_MESSAGE_LENGTH = (250 : Int) := rfl
    have hcl : 1 ≤ MOD_NOTE_MESSAGE_LENGTH - ((headerOf sn).length : Int) := by
      rw [h250] at hheader ⊢
      omega
    have hdone : (split_message_into_chunks (headerOf sn) sn.message.data
        MOD_NOTE_MESSAGE_LENGTH sn.message.data.length).2 = true :=
      chunksRun_done (headerOf sn) _ hcl sn.message.data.length
        sn.message.data le_rfl
    have hchunks := postChunks_ok client hapi hnone sn tm th postFuel hf hlbl
      (split_message_into_chunks (headerOf sn) sn.message.data
        MOD_NOTE_MESSAGE_LENGTH sn.message.data.length).1 k
    rw [if_pos hlen]
    simp only [hchunks, hdone]
    simp
  · obtain ⟨lbl, hl⟩ := hlbl
    obtain ⟨b, k2, hp⟩ := postToReddit_returns client hapi hnone postFuel k th hf
    simp only [hl, hp]
    rw [if_neg hlen]

/-- The whole conversion loop completes with status `ok`. -/
theorem convertLoop_ok (client : Nat → Option Thing → CreateOutcome)
    (resO : Nat → ResolveOracle) (tm : List (Int × SnooNoteType))
    (postFuel : Nat)
    (hapi : ∀ k th, client k th = .success ∨
      ∃ t, client k th = .raise (.apiException t))
    (hnone : ∀ k, client k none ≠ .raise (.apiException "NO_THING_ID"))
    (hf : 2 ≤ postFuel) :
    ∀ (l : List SnooNote) (i k : Nat),
      (∀ j n, l[j]? = some n →
        ∃ th, determine_submission_or_comment (resO (i + j)) n.url.data = .ok th) →
      (∀ n ∈ l, ∃ lbl, labelFor tm n = .ok lbl) →
      (∀ n ∈ l, ((headerOf n).length : Int) < MOD_NOTE_MESSAGE_LENGTH) →
      (convertLoop client resO tm postFuel l i k).status = .ok := by
  intro l
  induction l with
  | nil => intro i k _ _ _; rfl
  | cons sn rest ih =>
    intro i k hres hlbl hheader
    have hstep := convertStep_ok client (resO i) tm postFuel sn hapi hnone hf
      (hres 0 sn (by simp)) (hlbl sn (by simp)) (hheader sn (by simp)) k
    simp only [convertLoop, hstep]
    apply ih (i + 1) ((convertStep client (resO i) tm postFuel sn k).1)
    · intro j n hj
      have heq : i + (j + 1) = i + 1 + j := by omega
      have := hres (j + 1) n (by simpa using hj)
      rwa [heq] at this
    · exact fun n hn => hlbl n (List.mem_cons_of_mem sn hn)
    · exact fun n hn => hheader n (List.mem_cons_of_mem sn hn)

/-! ## Claim C9 -/

/-- C9 (counterexample): the per-record loop only contains
`RedditAPIException`; if the platform client raises any other exception
(here a server error) during `reddit.notes.create`, it escapes
`_post_to_reddit` and aborts `convert` — the remaining records are not
processed. -/
theorem claim_C9_cex :
    (convert (fun _ _ => CreateOutcome.raise (PyExc.otherExc "ServerError"))
        (fun _ => okOracle) [(1, banType)] [okNote] 2).status =
      ConvStatus.exc (PyExc.otherExc "ServerError") := by
  rfl

/-- C9 (amended): provided every failure the client reports is a
`RedditAPIException`, the client never reports `NO_THING_ID` for a call
with `thing=None`, every note's URL resolution returns without an
escaping exception, every note's label lookups succeed, and every note's
header is shorter than the 250-character limit, no exception escapes
`convert`'s per-record loop and all records are processed. -/
theorem claim_C9_no_escape (client : Nat → Option Thing → CreateOutcome)
    (resO : Nat → ResolveOracle) (tm : List (Int × SnooNoteType))
    (notes : List SnooNote) (postFuel : Nat)
    (hapi : ∀ k th, client k th = .success ∨
      ∃ t, client k th = .raise (.apiException t))
    (hnone : ∀ k, client k none ≠ .raise (.apiException "NO_THING_ID"))
    (hf : 2 ≤ postFuel)
    (hres : ∀ i n, notes[i]? = some n →
      ∃ th, determine_submission_or_comment (resO i) n.url.data = .ok th)
    (hlbl : ∀ n ∈ notes, ∃ lbl, labelFor tm n = .ok lbl)
    (hheader : ∀ n ∈ notes, ((headerOf n).length : Int) < MOD_NOTE_MESSAGE_LENGTH) :
    (convert client resO tm notes postFuel).status = ConvStatus.ok := by
  apply convertLoop_ok client resO tm postFuel hapi hnone hf notes 0 0
  · intro j n hj
    rw [Nat.zero_add]
    exact hres j n hj
  · exact hlbl
  · exact hheader

/-- C9 witness: one short, mapped, resolvable note and a client that
always succeeds. -/
theorem claim_C9_no_escape_witness :
    (convert (fun _ _ => CreateOutcome.success) (fun _ => okOracle)
        [(1, banType)] [okNote] 2).status = ConvStatus.ok :=
  claim_C9_no_escape (fun _ _ => CreateOutcome.success) (fun _ => okOracle)
    [(1, banType)] [okNote] 2
    (fun _ _ => Or.inl rfl)
    (fun _ h => CreateOutcome.noConfusion h)
    (by omega)
    (fun i n h => by
      cases i with
      | zero =>
        simp only [List.getElem?_cons_zero, Option.some.injEq] at h
        subst h
        exact ⟨some (Thing.comment true), rfl⟩
      | succ j => simp at h)
    (fun n hn => by
      simp only [List.mem_singleton] at hn
      subst hn
      exact ⟨some "BAN", rfl⟩)
    (fun n hn => by
      simp only [List.mem_singleton] at hn
      subst hn
      decide)

end SnooNoteImporter
